import Mathlib

/-!
Shallow embedding of the location-resolution and enrichment pipeline of
`src/app.py` (OpenWeather web application).  The external weather provider
(geocoding and current-weather HTTP endpoints) is modelled as a `Provider`
record of response functions; a raised `requests` exception is modelled as
an explicit error response.  JSON dictionaries are modelled as structures
with `Option` fields (a missing key is `none`); Python `None` values and
missing keys coincide in `Option` exactly as `dict.get` makes them coincide
in the source.  Numbers are exact rationals.
-/

set_option autoImplicit false

namespace WeatherApp

/-- One geocoding result dictionary, as returned by the OWM geocode endpoint
and consumed by `finalize_weather_data` (fields `lat`, `lon`, `country`,
`state`, `name`; the last three read with `.get`, hence optional). -/
structure GeocodeEntry where
  lat : ℚ
  lon : ℚ
  country : Option String := none
  state : Option String := none
  name : Option String := none
  deriving DecidableEq, Repr

/-- The `sys` sub-dictionary of a weather response (fields `country`, `state`). -/
structure SysInfo where
  country : Option String := none
  state : Option String := none
  deriving DecidableEq, Repr

/-- The `main` sub-dictionary of a weather response (fields `temp`, `humidity`). -/
structure MainInfo where
  temp : Option ℚ := none
  humidity : Option ℚ := none
  deriving DecidableEq, Repr

/-- One entry of the `weather` list of a weather response (field `description`). -/
structure WeatherCond where
  description : Option String := none
  deriving DecidableEq, Repr

/-- The `wind` sub-dictionary of a weather response (field `speed`). -/
structure WindInfo where
  speed : Option ℚ := none
  deriving DecidableEq, Repr

/-- A current-weather response dictionary.  `none` in a field means the key is
absent from the dictionary (Python `.get` then yields `None` or the default). -/
structure WeatherData where
  main : Option MainInfo := none
  weather : Option (List WeatherCond) := none
  wind : Option WindInfo := none
  sys : Option SysInfo := none
  name : Option String := none
  deriving DecidableEq, Repr

/-- Outcome of one call to the geocode endpoint: a raised request exception,
or a JSON list of results (empty list when nothing was found). -/
inductive GeoResp where
  | err : GeoResp
  | ok : List GeocodeEntry → GeoResp
  deriving DecidableEq, Repr

/-- Outcome of one call to the current-weather endpoint: a raised request
exception, or a weather dictionary. -/
inductive WxResp where
  | err : WxResp
  | ok : WeatherData → WxResp
  deriving DecidableEq, Repr

/-- The external OpenWeatherMap provider: `geocode` models
`direct_geocode(query, api_key)` and `currentWeather` models
`get_weather_by_latlon(lat, lon, api_key)` (the api key is fixed inside). -/
structure Provider where
  geocode : String → GeoResp
  currentWeather : ℚ → ℚ → WxResp

/-- Model of `US_STATE_ABBREVS` from `app.py`: the 51 recognized US state/territory codes. -/
def US_STATE_ABBREVS : List String :=
  ["AL","AK","AZ","AR","CA","CO","CT","DE","FL","GA",
   "HI","ID","IL","IN","IA","KS","KY","LA","ME","MD",
   "MA","MI","MN","MS","MO","MT","NE","NV","NH","NJ",
   "NM","NY","NC","ND","OH","OK","OR","PA","RI","SC",
   "SD","TN","TX","UT","VT","VA","WA","WV","WI","WY",
   "DC"]

/-- Model of `COUNTRY_SYNONYMS` from `app.py`: the country-code synonym dictionary. -/
def COUNTRY_SYNONYMS : List (String × String) :=
  [("UK", "GB")]

/-- Model of `convert_temperatures(kelvin)` from `app.py`. -/
def convert_temperatures (kelvin : Option ℚ) : Option ℚ × Option ℚ :=
  match kelvin with
  | none => (none, none)
  | some k =>
    let celsius := k - 273.15
    let fahrenheit := celsius * 9 / 5 + 32
    (some celsius, some fahrenheit)

/-- Model of `calculate_comfort_index(temp_celsius, humidity, wind_speed)` from `app.py`. -/
def calculate_comfort_index (temp_celsius humidity wind_speed : Option ℚ) : Option ℚ :=
  match temp_celsius, humidity, wind_speed with
  | some t, some h, some w =>
    let normalized_temp := max 0 (min t 40) / 40
    let normalized_humidity := 1 - h / 100
    let normalized_wind := 1 - min w 10 / 10
    some (0.5 * normalized_temp + 0.3 * normalized_humidity + 0.2 * normalized_wind)
  | _, _, _ => none

/-! ### Model of the Python string primitives used by the resolver

Core `String` functions of this Lean version are defined by well-founded
recursion on byte positions and do not reduce in the kernel, so the Python
string methods used by `app.py` are modelled by structurally recursive
functions on the character list of the string. -/

/-- Helper for `py_split_comma`: splits a character list at every comma,
`acc` holding the (reversed) characters of the current piece. -/
def splitCommaAux : List Char → List Char → List (List Char)
  | [], acc => [acc.reverse]
  | c :: cs, acc =>
    if c = ',' then acc.reverse :: splitCommaAux cs []
    else splitCommaAux cs (c :: acc)

/-- Python `s.split(",")`: the pieces of `s` between commas, in order; the
empty string splits to `[""]`. -/
def py_split_comma (s : String) : List String :=
  (splitCommaAux s.data []).map String.mk

/-- Drop leading whitespace characters from a character list. -/
def py_lstrip : List Char → List Char
  | [] => []
  | c :: cs => if c.isWhitespace then py_lstrip cs else c :: cs

/-- Python `s.strip()`: drop leading and trailing whitespace. -/
def py_strip (s : String) : String :=
  String.mk ((py_lstrip (py_lstrip s.data).reverse).reverse)

/-- Python `s.upper()` (ASCII case mapping). -/
def py_upper (s : String) : String :=
  String.mk (s.data.map Char.toUpper)

/-- Python `s.replace(".", "")`: remove every period. -/
def py_remove_periods (s : String) : String :=
  String.mk (s.data.filter (fun c => c ≠ '.'))

/-- Python `",".join(l)`. -/
def py_join_comma : List String → String
  | [] => ""
  | [s] => s
  | s :: rest => s ++ "," ++ py_join_comma rest

/-! ### The resolution and enrichment pipeline -/

/-- The value of a weather-endpoint call after Python exception handling in
the caller: a raised request exception becomes `none`. -/
def wxToOption : WxResp → Option WeatherData
  | WxResp.err => none
  | WxResp.ok wd => some wd

/-- Model of `finalize_weather_data(geocode_data, api_key)` from `app.py`: fetch the
weather at the coordinates of the first geocode result and overlay the
geocode country/state/name onto it.  An empty `geocode_data` list (never
reached by the callers, which test emptiness first) raises an index error,
modelled as `WxResp.err`. -/
def finalize_weather_data (p : Provider) (geocode_data : List GeocodeEntry) : WxResp :=
  match geocode_data with
  | [] => WxResp.err
  | g :: _ =>
    match p.currentWeather g.lat g.lon with
    | WxResp.err => WxResp.err
    | WxResp.ok weather_data =>
      let sys0 := weather_data.sys.getD {}
      WxResp.ok { weather_data with
        sys := some { sys0 with country := g.country, state := g.state },
        name := g.name }

/-- The fallback query built by the country-synonym branch of
`try_geocode_fallbacks`: `",".join(parts[:-1]) + "," + synonym`. -/
def fallback_query_A (parts : List String) (syn : String) : String :=
  py_join_comma parts.dropLast ++ "," ++ syn

/-- Model of `try_geocode_fallbacks(location_query, api_key)` from `app.py`.  Each
fallback attempt catches its own request or unexpected exceptions (a caught
exception yields no result for that attempt, and the next fallback is still
considered). -/
def try_geocode_fallbacks (p : Provider) (location_query : String) : Option WeatherData :=
  let parts := (py_split_comma location_query).map py_strip
  let fallbackA : Option WeatherData :=
    if 2 ≤ parts.length then
      let last_part := py_remove_periods (py_upper parts.getLast!)
      match COUNTRY_SYNONYMS.lookup last_part with
      | some syn =>
        match p.geocode (fallback_query_A parts syn) with
        | GeoResp.err => none
        | GeoResp.ok geo_data =>
          if geo_data.isEmpty then none
          else wxToOption (finalize_weather_data p geo_data)
      | none => none
    else none
  match fallbackA with
  | some w => some w
  | none =>
    if 2 ≤ parts.length then
      let possible_state := py_remove_periods (py_upper parts.getLast!)
      if possible_state ∈ US_STATE_ABBREVS then
        match p.geocode (location_query ++ ", US") with
        | GeoResp.err => none
        | GeoResp.ok geo_data =>
          if geo_data.isEmpty then none
          else wxToOption (finalize_weather_data p geo_data)
      else none
    else none

/-- Model of `get_weather_data_geocoded(location_query, api_key)` from `app.py`: the
direct attempt, then (only when the direct attempt returned an empty list)
the fallbacks.  The surrounding `try` block turns an exception raised by the
direct geocode call, or by the finalization of a successful direct geocode,
into `None`. -/
def get_weather_data_geocoded (p : Provider) (location_query : String) :
    Option WeatherData :=
  match p.geocode location_query with
  | GeoResp.err => none
  | GeoResp.ok geo_data =>
    if geo_data.isEmpty then try_geocode_fallbacks p location_query
    else wxToOption (finalize_weather_data p geo_data)

/-- Python truthiness of an optional string: falsy iff missing or empty. -/
def strFalsy : Option String → Bool
  | none => true
  | some s => s = ""

/-- Python `a or b` for an optional string `a` and a default string `b`. -/
def pyOr (a : Option String) (b : String) : String :=
  match a with
  | none => b
  | some s => if s = "" then b else s

/-- One entry of the list built by the `/get_weather` route: a success
dictionary, a could-not-fetch error dictionary, or an incomplete-data error
dictionary (which still carries city/country/state). -/
inductive WeatherResult where
  | success (original_input : String) (city_name country_code state : Option String)
      (weather_desc : String)
      (temp_kelvin temp_celsius temp_fahrenheit humidity wind_speed comfort_index : Option ℚ)
  | fetchFailure (original_input : String)
  | incompleteFailure (original_input : String) (city_name : String)
      (country_code state : Option String)
  deriving DecidableEq, Repr

/-- Whether a result entry is a success dictionary. -/
def WeatherResult.isSuccess : WeatherResult → Bool
  | WeatherResult.success .. => true
  | _ => false

/-- The weather description of a success entry, if any. -/
def WeatherResult.descOf : WeatherResult → Option String
  | WeatherResult.success _ _ _ _ d _ _ _ _ _ _ => some d
  | _ => none

/-- The body of the per-query loop of the `/get_weather` route in `app.py`,
for one stripped, non-empty input: fetch, extract, validate, derive. -/
def process_query (p : Provider) (original_input : String) : WeatherResult :=
  match get_weather_data_geocoded p original_input with
  | none => WeatherResult.fetchFailure original_input
  | some weather_data =>
    let main_info := weather_data.main.getD {}
    let temp_kelvin := main_info.temp
    let humidity := main_info.humidity
    let weather_details := weather_data.weather.getD [{}]
    let weather_desc :=
      match weather_details with
      | [] => "N/A"
      | c :: _ => c.description.getD "N/A"
    let wind_info := weather_data.wind.getD {}
    let wind_speed := wind_info.speed
    let city_name_api := weather_data.name
    let country_code := (weather_data.sys.getD {}).country
    let state_name := (weather_data.sys.getD {}).state
    if temp_kelvin.isNone || humidity.isNone || wind_speed.isNone ||
        strFalsy city_name_api then
      WeatherResult.incompleteFailure original_input (pyOr city_name_api "Unknown")
        country_code state_name
    else
      let tf := convert_temperatures temp_kelvin
      let comfort := calculate_comfort_index tf.1 humidity wind_speed
      WeatherResult.success original_input city_name_api country_code state_name
        weather_desc temp_kelvin tf.1 tf.2 humidity wind_speed comfort

/-- The batch loop of the `/get_weather` route: strip each query, skip the
ones that become empty, process the rest in order. -/
def get_weather (p : Provider) (location_queries : List String) : List WeatherResult :=
  match location_queries with
  | [] => []
  | q :: rest =>
    let original_input := py_strip q
    if original_input = "" then get_weather p rest
    else process_query p original_input :: get_weather p rest

/-! ### Concrete providers and payloads used as test inputs -/

/-- A geocode result for Boston, MA. -/
def bostonEntry : GeocodeEntry :=
  { lat := 42, lon := -71, country := some "US",
    state := some "Massachusetts", name := some "Boston" }

/-- A geocode result for London. -/
def londonEntry : GeocodeEntry :=
  { lat := 51, lon := 0, country := some "GB", state := none, name := some "London" }

/-- A complete raw weather payload, with provider-native location fields. -/
def wdRaw : WeatherData :=
  { main := some { temp := some 280, humidity := some 60 },
    weather := some [{ description := some "clear sky" }],
    wind := some { speed := some 4 },
    sys := some { country := some "XX", state := some "YY" },
    name := some "ProviderName" }

/-- A complete raw weather payload with no `sys` substructure at all. -/
def wdNoSys : WeatherData :=
  { main := some { temp := some 290, humidity := some 50 },
    weather := some [{ description := some "rain" }],
    wind := some { speed := some 2 },
    sys := none,
    name := some "ProviderName" }

/-- A raw weather payload whose `weather` list is empty. -/
def wdEmptyWx : WeatherData :=
  { main := some { temp := some 280, humidity := some 60 },
    weather := some [],
    wind := some { speed := some 4 },
    sys := none,
    name := none }

/-- Provider for which the direct geocode of `"Boston, MA"` raises a request
exception while the US-state fallback query `"Boston, MA, US"` would geocode
successfully. -/
def pDirectErr : Provider :=
  { geocode := fun q =>
      if q = "Boston, MA" then GeoResp.err
      else if q = "Boston, MA, US" then GeoResp.ok [bostonEntry]
      else GeoResp.ok [],
    currentWeather := fun _ _ => WxResp.ok wdRaw }

/-- Provider for which the direct geocode of `"Boston, MA"` returns an empty
list and the US-state fallback query `"Boston, MA, US"` geocodes successfully. -/
def pStateFb : Provider :=
  { geocode := fun q =>
      if q = "Boston, MA, US" then GeoResp.ok [bostonEntry]
      else GeoResp.ok [],
    currentWeather := fun _ _ => WxResp.ok wdRaw }

/-- Provider that only recognizes the query `"London, GB"` (with a space). -/
def pLondonSpace : Provider :=
  { geocode := fun q =>
      if q = "London, GB" then GeoResp.ok [londonEntry] else GeoResp.ok [],
    currentWeather := fun _ _ => WxResp.ok wdRaw }

/-- Provider that only recognizes the query `"London,GB"` (no space). -/
def pLondonNoSpace : Provider :=
  { geocode := fun q =>
      if q = "London,GB" then GeoResp.ok [londonEntry] else GeoResp.ok [],
    currentWeather := fun _ _ => WxResp.ok wdRaw }

/-- Provider that geocodes `"Boston"` directly and returns a complete
weather payload. -/
def pComplete : Provider :=
  { geocode := fun q =>
      if q = "Boston" then GeoResp.ok [bostonEntry] else GeoResp.ok [],
    currentWeather := fun _ _ => WxResp.ok wdRaw }

/-- Provider whose weather payload lacks the `sys` substructure. -/
def pNoSys : Provider :=
  { geocode := fun q =>
      if q = "Boston" then GeoResp.ok [bostonEntry] else GeoResp.ok [],
    currentWeather := fun _ _ => WxResp.ok wdNoSys }

/-- Provider whose weather payload has an empty `weather` list. -/
def pEmptyWx : Provider :=
  { geocode := fun q =>
      if q = "Boston" then GeoResp.ok [bostonEntry] else GeoResp.ok [],
    currentWeather := fun _ _ => WxResp.ok wdEmptyWx }

/-- A geocode result whose resolved city name is the empty string. -/
def emptyNameEntry : GeocodeEntry :=
  { lat := 7, lon := 8, country := some "US", state := some "Ohio", name := some "" }

/-- Provider whose geocode result carries an empty city name. -/
def pEmptyName : Provider :=
  { geocode := fun q =>
      if q = "Somewhere" then GeoResp.ok [emptyNameEntry] else GeoResp.ok [],
    currentWeather := fun _ _ => WxResp.ok wdRaw }

/-- The enriched payload produced by `pComplete` for `"Boston"`. -/
def wdBostonEnriched : WeatherData :=
  { wdRaw with
    sys := some { country := some "US", state := some "Massachusetts" },
    name := some "Boston" }

/-- The enriched payload produced by `pEmptyWx` for `"Boston"`. -/
def wdBostonEmptyWx : WeatherData :=
  { wdEmptyWx with
    sys := some { country := some "US", state := some "Massachusetts" },
    name := some "Boston" }

/-- The enriched payload produced by `pEmptyName` for `"Somewhere"`. -/
def wdEmptyNameEnriched : WeatherData :=
  { wdRaw with
    sys := some { country := some "US", state := some "Ohio" },
    name := some "" }

/-- The enriched payload produced by `pLondonNoSpace` for `"London, UK"`. -/
def wdLondonEnriched : WeatherData :=
  { wdRaw with
    sys := some { country := some "GB", state := none },
    name := some "London" }

/-- Unfolding equation for `calculate_comfort_index` on three present inputs. -/
theorem calculate_comfort_index_eq (t h w : ℚ) :
    calculate_comfort_index (some t) (some h) (some w) =
      some (0.5 * (max 0 (min t 40) / 40) + 0.3 * (1 - h / 100) +
        0.2 * (1 - min w 10 / 10)) := rfl

/-- Claim C7: `convert_temperatures` maps `None` to `(None, None)` and any
kelvin value `k` to exactly `(k - 273.15, (k - 273.15) * 9/5 + 32)`; in
particular `273.15 K` maps to `(0 C, 32 F)`. -/
theorem convert_temperatures_spec :
    convert_temperatures none = (none, none) ∧
    (∀ k : ℚ, convert_temperatures (some k) =
      (some (k - 273.15), some ((k - 273.15) * 9 / 5 + 32))) ∧
    convert_temperatures (some 273.15) = (some 0, some 32) := by
  refine ⟨rfl, fun k => rfl, by norm_num [convert_temperatures]⟩

/-- Claim C5 counterexample: the comfort index of `(20 C, 50 %, 5 m/s)` is not
`0.675` (it is `0.5`: each of the three normalized terms equals `1/2`, and the
weights sum to `1`). -/
theorem calculate_comfort_index_not_0675 :
    calculate_comfort_index (some 20) (some 50) (some 5) ≠ some 0.675 := by
  rw [calculate_comfort_index_eq]
  norm_num [min_def, max_def]

/-- Claim C5 (amended): `calculate_comfort_index` returns `none` exactly when
some input is `none`; for present inputs with humidity in `[0,100]` and
non-negative wind it returns
`0.5 * (clamp(t,0,40)/40) + 0.3 * (1 - h/100) + 0.2 * (1 - clamp(w,0,10)/10)`,
a value in `[0,1]`; and the index of `(20, 50, 5)` is `0.5`. -/
theorem calculate_comfort_index_spec :
    (∀ t h w : Option ℚ,
      calculate_comfort_index t h w = none ↔ (t = none ∨ h = none ∨ w = none)) ∧
    (∀ t h w : ℚ, 0 ≤ h → h ≤ 100 → 0 ≤ w →
      calculate_comfort_index (some t) (some h) (some w) =
        some (0.5 * (max 0 (min t 40) / 40) + 0.3 * (1 - h / 100) +
          0.2 * (1 - max 0 (min w 10) / 10)) ∧
      (∀ c : ℚ, calculate_comfort_index (some t) (some h) (some w) = some c →
        0 ≤ c ∧ c ≤ 1)) ∧
    calculate_comfort_index (some 20) (some 50) (some 5) = some 0.5 := by
  refine ⟨?_, ?_, by rw [calculate_comfort_index_eq]; norm_num [min_def, max_def]⟩
  · intro t h w
    match t, h, w with
    | none, _, _ => simp [calculate_comfort_index]
    | some t, none, _ => simp [calculate_comfort_index]
    | some t, some h, none => simp [calculate_comfort_index]
    | some t, some h, some w => simp [calculate_comfort_index]
  · intro t h w hh0 hh100 hw0
    have hminw : max 0 (min w 10) = min w 10 :=
      max_eq_right (le_min hw0 (by norm_num))
    constructor
    · rw [calculate_comfort_index_eq, hminw]
    · intro c hc
      rw [calculate_comfort_index_eq] at hc
      have hc2 : c = 0.5 * (max 0 (min t 40) / 40) + 0.3 * (1 - h / 100) +
          0.2 * (1 - min w 10 / 10) := (Option.some_inj.mp hc).symm
      have h1 : (0:ℚ) ≤ max 0 (min t 40) := le_max_left 0 _
      have h2 : max 0 (min t 40) ≤ 40 :=
        max_le (by norm_num) (min_le_right t 40)
      have h3 : (0:ℚ) ≤ min w 10 := le_min hw0 (by norm_num)
      have h4 : min w 10 ≤ 10 := min_le_right w 10
      constructor <;> [skip; skip] <;> rw [hc2] <;> nlinarith

/-- Claim C5 witness: the amended statement instantiated at `(20, 50, 5)`. -/
theorem calculate_comfort_index_spec_witness :
    (0:ℚ) ≤ 50 ∧ (50:ℚ) ≤ 100 ∧ (0:ℚ) ≤ 5 ∧
    calculate_comfort_index (some 20) (some 50) (some 5) =
      some (0.5 * (max 0 (min (20:ℚ) 40) / 40) + 0.3 * (1 - 50 / 100) +
        0.2 * (1 - max 0 (min (5:ℚ) 10) / 10)) :=
  ⟨by norm_num, by norm_num, by norm_num,
    (calculate_comfort_index_spec.2.1 20 50 5 (by norm_num) (by norm_num)
      (by norm_num)).1⟩

/-- Claim C6: the comfort index is monotonically non-increasing in humidity
and in wind speed, and non-decreasing in temperature within `[0,40]`, the
other arguments held fixed. -/
theorem calculate_comfort_index_monotone :
    (∀ t h1 h2 w c1 c2 : ℚ, h1 ≤ h2 →
      calculate_comfort_index (some t) (some h1) (some w) = some c1 →
      calculate_comfort_index (some t) (some h2) (some w) = some c2 →
      c2 ≤ c1) ∧
    (∀ t h w1 w2 c1 c2 : ℚ, w1 ≤ w2 →
      calculate_comfort_index (some t) (some h) (some w1) = some c1 →
      calculate_comfort_index (some t) (some h) (some w2) = some c2 →
      c2 ≤ c1) ∧
    (∀ t1 t2 h w c1 c2 : ℚ, 0 ≤ t1 → t1 ≤ t2 → t2 ≤ 40 →
      calculate_comfort_index (some t1) (some h) (some w) = some c1 →
      calculate_comfort_index (some t2) (some h) (some w) = some c2 →
      c1 ≤ c2) := by
  refine ⟨?_, ?_, ?_⟩
  · intro t h1 h2 w c1 c2 hle hc1 hc2
    rw [calculate_comfort_index_eq] at hc1 hc2
    have e1 := (Option.some_inj.mp hc1).symm
    have e2 := (Option.some_inj.mp hc2).symm
    rw [e1, e2]
    nlinarith
  · intro t h w1 w2 c1 c2 hle hc1 hc2
    rw [calculate_comfort_index_eq] at hc1 hc2
    have e1 := (Option.some_inj.mp hc1).symm
    have e2 := (Option.some_inj.mp hc2).symm
    have hmin : min w1 10 ≤ min w2 10 := min_le_min hle le_rfl
    rw [e1, e2]
    nlinarith
  · intro t1 t2 h w c1 c2 ht0 htle ht40 hc1 hc2
    rw [calculate_comfort_index_eq] at hc1 hc2
    have e1 := (Option.some_inj.mp hc1).symm
    have e2 := (Option.some_inj.mp hc2).symm
    have hmax : max 0 (min t1 40) ≤ max 0 (min t2 40) :=
      max_le_max le_rfl (min_le_min htle le_rfl)
    rw [e1, e2]
    nlinarith

/-- Claim C6 witness: monotonicity in humidity instantiated at
`t = 20`, `h1 = 40`, `h2 = 60`, `w = 5`. -/
theorem calculate_comfort_index_monotone_witness :
    (40:ℚ) ≤ 60 ∧
    calculate_comfort_index (some 20) (some 40) (some 5) = some (53/100) ∧
    calculate_comfort_index (some 20) (some 60) (some 5) = some (47/100) ∧
    (47:ℚ)/100 ≤ 53/100 :=
  ⟨by norm_num,
    by rw [calculate_comfort_index_eq]; norm_num [min_def, max_def],
    by rw [calculate_comfort_index_eq]; norm_num [min_def, max_def],
    calculate_comfort_index_monotone.1 20 40 60 5 (53/100) (47/100)
      (by norm_num)
      (by rw [calculate_comfort_index_eq]; norm_num [min_def, max_def])
      (by rw [calculate_comfort_index_eq]; norm_num [min_def, max_def])⟩

end WeatherApp

namespace WeatherApp

/-- A US state abbreviation is never a key of the country-synonym table. -/
theorem lookup_of_state (s : String) (h : s ∈ US_STATE_ABBREVS) :
    COUNTRY_SYNONYMS.lookup s = none := by
  have hne : (s == "UK") = false :=
    beq_eq_false_iff_ne.mpr fun he => by
      subst he
      exact absurd h (by decide)
  simp [COUNTRY_SYNONYMS, List.lookup, hne]

/-- Claim C1 counterexample: with a provider whose direct geocode of
`"Boston, MA"` raises a request exception while the US-state fallback query
`"Boston, MA, US"` would geocode successfully, the query yields a fetch
Failure, not a Success: the fallbacks are never reached. -/
theorem process_query_direct_error_failure :
    pDirectErr.geocode "Boston, MA" = GeoResp.err ∧
    pDirectErr.geocode "Boston, MA, US" = GeoResp.ok [bostonEntry] ∧
    process_query pDirectErr "Boston, MA" = WeatherResult.fetchFailure "Boston, MA" :=
  ⟨by decide, by decide, by decide⟩

/-- Claim C1 (amended): a provider error on the direct geocode attempt makes
the whole resolution return `none` (a Failure) without trying any fallback;
fallback attempts are made only when the direct attempt returns an empty
list, in which case a successful US-state fallback yields the Success data. -/
theorem get_weather_data_geocoded_error_handling :
    (∀ (p : Provider) (q : String),
      p.geocode q = GeoResp.err → get_weather_data_geocoded p q = none) ∧
    (∀ (p : Provider) (q : String) (g : GeocodeEntry) (gs : List GeocodeEntry)
      (wd : WeatherData),
      p.geocode q = GeoResp.ok [] →
      2 ≤ ((py_split_comma q).map py_strip).length →
      py_remove_periods (py_upper ((py_split_comma q).map py_strip).getLast!) ∈
        US_STATE_ABBREVS →
      p.geocode (q ++ ", US") = GeoResp.ok (g :: gs) →
      finalize_weather_data p (g :: gs) = WxResp.ok wd →
      get_weather_data_geocoded p q = some wd) := by
  constructor
  · intro p q hq
    simp [get_weather_data_geocoded, hq]
  · intro p q g gs wd hq hlen hstate hfb hfin
    have hlook := lookup_of_state _ hstate
    have hlen2 : 2 ≤ (py_split_comma q).length := by simpa using hlen
    simp [get_weather_data_geocoded, hq, try_geocode_fallbacks, hlen2, hlook,
      hstate, hfb, hfin, wxToOption]

/-- Claim C1 witness: the amended statement instantiated at a provider whose
direct geocode of `"Boston, MA"` is empty and whose US-state fallback query
succeeds. -/
theorem get_weather_data_geocoded_error_handling_witness :
    pStateFb.geocode "Boston, MA" = GeoResp.ok [] ∧
    pStateFb.geocode ("Boston, MA" ++ ", US") = GeoResp.ok [bostonEntry] ∧
    finalize_weather_data pStateFb [bostonEntry] = WxResp.ok wdBostonEnriched ∧
    get_weather_data_geocoded pStateFb "Boston, MA" = some wdBostonEnriched :=
  ⟨by decide, by decide, by decide,
    get_weather_data_geocoded_error_handling.2 pStateFb "Boston, MA" bostonEntry []
      wdBostonEnriched (by decide) (by decide) (by decide) (by decide) (by decide)⟩

/-- Claim C2 counterexample: the country-synonym fallback does not retry
`"London, UK"` as `"London, GB"`; a provider recognizing only `"London, GB"`
(with the space) makes the resolution fail, while one recognizing
`"London,GB"` (the string actually built, without a space) succeeds. -/
theorem resolver_uk_retry_not_spaced :
    get_weather_data_geocoded pLondonSpace "London, UK" = none ∧
    get_weather_data_geocoded pLondonNoSpace "London, UK" = some wdLondonEnriched :=
  ⟨by decide, by decide⟩

/-- Claim C2 (amended): when the direct geocode is empty and the last
comma-delimited part of the query, stripped, uppercased and with periods
removed, is `"UK"`, the resolver retries geocoding with
`",".join(parts[:-1]) + ",GB"` (the stripped leading parts joined by bare
commas); for `"London, UK"` the retried query is exactly `"London,GB"`. -/
theorem resolver_uk_synonym_retry :
    (∀ (p : Provider) (q : String) (g : GeocodeEntry) (gs : List GeocodeEntry)
      (wd : WeatherData),
      p.geocode q = GeoResp.ok [] →
      2 ≤ ((py_split_comma q).map py_strip).length →
      py_remove_periods (py_upper ((py_split_comma q).map py_strip).getLast!) = "UK" →
      p.geocode (fallback_query_A ((py_split_comma q).map py_strip) "GB") =
        GeoResp.ok (g :: gs) →
      finalize_weather_data p (g :: gs) = WxResp.ok wd →
      get_weather_data_geocoded p q = some wd) ∧
    fallback_query_A ((py_split_comma "London, UK").map py_strip) "GB" = "London,GB" := by
  constructor
  · intro p q g gs wd hq hlen hUK hfb hfin
    have hlook : COUNTRY_SYNONYMS.lookup
        (py_remove_periods (py_upper ((py_split_comma q).map py_strip).getLast!)) =
        some "GB" := by rw [hUK]; rfl
    have hlen2 : 2 ≤ (py_split_comma q).length := by simpa using hlen
    simp [get_weather_data_geocoded, hq, try_geocode_fallbacks, hlen2, hlook,
      hfb, hfin, wxToOption]
  · decide

/-- Claim C2 witness: the amended statement instantiated at `"London, UK"`
with a provider that recognizes exactly the rebuilt query `"London,GB"`. -/
theorem resolver_uk_synonym_retry_witness :
    pLondonNoSpace.geocode "London, UK" = GeoResp.ok [] ∧
    pLondonNoSpace.geocode
      (fallback_query_A ((py_split_comma "London, UK").map py_strip) "GB") =
      GeoResp.ok [londonEntry] ∧
    get_weather_data_geocoded pLondonNoSpace "London, UK" = some wdLondonEnriched :=
  ⟨by decide, by decide,
    resolver_uk_synonym_retry.1 pLondonNoSpace "London, UK" londonEntry []
      wdLondonEnriched (by decide) (by decide) (by decide) (by decide) (by decide)⟩

/-- Claim C3: for a query that resolves to the enriched payload `wd`, the
emitted record is a Success iff temperature, humidity, wind speed are present
and the city name is present and non-empty; otherwise it is the
incomplete-data Failure still carrying the recovered city/country/state. -/
theorem process_query_success_iff (p : Provider) (q : String) (wd : WeatherData)
    (h : get_weather_data_geocoded p q = some wd) :
    ((process_query p q).isSuccess = true ↔
      ((wd.main.getD {}).temp ≠ none ∧ (wd.main.getD {}).humidity ≠ none ∧
        (wd.wind.getD {}).speed ≠ none ∧ strFalsy wd.name = false)) ∧
    (((wd.main.getD {}).temp = none ∨ (wd.main.getD {}).humidity = none ∨
        (wd.wind.getD {}).speed = none ∨ strFalsy wd.name = true) →
      process_query p q = WeatherResult.incompleteFailure q (pyOr wd.name "Unknown")
        ((wd.sys.getD {}).country) ((wd.sys.getD {}).state)) := by
  cases htemp : (wd.main.getD {}).temp <;>
    cases hhum : (wd.main.getD {}).humidity <;>
      cases hwind : (wd.wind.getD {}).speed <;>
        cases hname : strFalsy wd.name <;>
          simp [process_query, h, htemp, hhum, hwind, hname,
            WeatherResult.isSuccess]

/-- Claim C3 witness: the statement instantiated at a provider returning a
complete payload for `"Boston"`. -/
theorem process_query_success_iff_witness :
    get_weather_data_geocoded pComplete "Boston" = some wdBostonEnriched ∧
    (((process_query pComplete "Boston").isSuccess = true ↔
      ((wdBostonEnriched.main.getD {}).temp ≠ none ∧
        (wdBostonEnriched.main.getD {}).humidity ≠ none ∧
        (wdBostonEnriched.wind.getD {}).speed ≠ none ∧
        strFalsy wdBostonEnriched.name = false)) ∧
      (((wdBostonEnriched.main.getD {}).temp = none ∨
          (wdBostonEnriched.main.getD {}).humidity = none ∨
          (wdBostonEnriched.wind.getD {}).speed = none ∨
          strFalsy wdBostonEnriched.name = true) →
        process_query pComplete "Boston" =
          WeatherResult.incompleteFailure "Boston"
            (pyOr wdBostonEnriched.name "Unknown")
            ((wdBostonEnriched.sys.getD {}).country)
            ((wdBostonEnriched.sys.getD {}).state))) :=
  ⟨by decide,
    process_query_success_iff pComplete "Boston" wdBostonEnriched (by decide)⟩

/-- Claim C4: the batch loop emits exactly one record per input that is
non-empty after stripping, in input order; inputs that strip to the empty
string are dropped. -/
theorem get_weather_batch_shape (p : Provider) (queries : List String) :
    get_weather p queries =
      ((queries.map py_strip).filter (fun s => s ≠ "")).map (process_query p) := by
  induction queries with
  | nil => rfl
  | cons q rest ih =>
    by_cases hq : py_strip q = ""
    · simp [get_weather, hq, ih]
    · simp [get_weather, hq, ih]

/-- Claim C8: for any geocode match and any weather payload the provider
returns at its coordinates, enrichment overwrites the payload country,
state and city name with the match values unconditionally, and always
produces a payload with a `sys` substructure (creating it if absent). -/
theorem finalize_weather_data_overlay (p : Provider) (g : GeocodeEntry)
    (gs : List GeocodeEntry) (wd : WeatherData)
    (h : p.currentWeather g.lat g.lon = WxResp.ok wd) :
    finalize_weather_data p (g :: gs) =
      WxResp.ok { wd with
        sys := some { country := g.country, state := g.state },
        name := g.name } := by
  simp [finalize_weather_data, h]

/-- Claim C8 witness: the statement instantiated at a payload with no `sys`
substructure at all. -/
theorem finalize_weather_data_overlay_witness :
    pNoSys.currentWeather bostonEntry.lat bostonEntry.lon = WxResp.ok wdNoSys ∧
    wdNoSys.sys = none ∧
    finalize_weather_data pNoSys [bostonEntry] =
      WxResp.ok { wdNoSys with
        sys := some { country := bostonEntry.country, state := bostonEntry.state },
        name := bostonEntry.name } :=
  ⟨rfl, rfl,
    finalize_weather_data_overlay pNoSys bostonEntry [] wdNoSys rfl⟩

/-- Claim C9: when the enriched payload has temperature, humidity, wind and a
non-empty city name but its `weather` list is missing or empty, the record is
still a Success and its description is the literal `"N/A"`. -/
theorem process_query_desc_default (p : Provider) (q : String) (wd : WeatherData)
    (h : get_weather_data_geocoded p q = some wd)
    (hd : wd.weather = none ∨ wd.weather = some [])
    (ht : (wd.main.getD {}).temp ≠ none)
    (hh : (wd.main.getD {}).humidity ≠ none)
    (hw : (wd.wind.getD {}).speed ≠ none)
    (hn : strFalsy wd.name = false) :
    (process_query p q).isSuccess = true ∧
    (process_query p q).descOf = some "N/A" := by
  obtain ⟨tv, htv⟩ := Option.ne_none_iff_exists'.mp ht
  obtain ⟨hv, hhv⟩ := Option.ne_none_iff_exists'.mp hh
  obtain ⟨wv, hwv⟩ := Option.ne_none_iff_exists'.mp hw
  rcases hd with hd | hd <;>
    simp [process_query, h, htv, hhv, hwv, hn, hd,
      WeatherResult.isSuccess, WeatherResult.descOf]

/-- Claim C9 witness: the statement instantiated at a provider whose payload
has an empty `weather` list. -/
theorem process_query_desc_default_witness :
    get_weather_data_geocoded pEmptyWx "Boston" = some wdBostonEmptyWx ∧
    wdBostonEmptyWx.weather = some [] ∧
    (process_query pEmptyWx "Boston").isSuccess = true ∧
    (process_query pEmptyWx "Boston").descOf = some "N/A" :=
  ⟨by decide, by decide,
    process_query_desc_default pEmptyWx "Boston" wdBostonEmptyWx (by decide)
      (Or.inr (by decide)) (by decide) (by decide) (by decide) (by decide)⟩

/-- Claim C10: when the enriched payload carries an empty-string city name,
the record is the incomplete-data Failure and its city name field is the
literal `"Unknown"`. -/
theorem process_query_empty_name (p : Provider) (q : String) (wd : WeatherData)
    (h : get_weather_data_geocoded p q = some wd)
    (hn : wd.name = some "") :
    process_query p q = WeatherResult.incompleteFailure q "Unknown"
      ((wd.sys.getD {}).country) ((wd.sys.getD {}).state) := by
  simp [process_query, h, hn, strFalsy, pyOr]

/-- Claim C10 witness: the statement instantiated at a provider whose geocode
result carries an empty city name. -/
theorem process_query_empty_name_witness :
    get_weather_data_geocoded pEmptyName "Somewhere" = some wdEmptyNameEnriched ∧
    wdEmptyNameEnriched.name = some "" ∧
    process_query pEmptyName "Somewhere" =
      WeatherResult.incompleteFailure "Somewhere" "Unknown"
        ((wdEmptyNameEnriched.sys.getD {}).country)
        ((wdEmptyNameEnriched.sys.getD {}).state) :=
  ⟨by decide, by decide,
    process_query_empty_name pEmptyName "Somewhere" wdEmptyNameEnriched
      (by decide) (by decide)⟩

end WeatherApp
